import Mathlib

/-!
Shallow embedding of the deepface-facs AU-detection and emotion-inference core.

Numbers: Python floats are modelled by `ℚ` (exact real arithmetic; the claims'
"within 1e-6" tolerances are then exact equalities or concrete rational gaps).
The only irrational primitive the embedded code uses is `np.sqrt` (inside
`np.linalg.norm`); it is modelled by an abstract parameter `sqrtA : ℚ → ℚ`
passed identically to every component, exactly as both Python detector paths
call the same `np.sqrt`.  Python dicts keyed by strings are modelled as
`String → Option ℚ`; dicts keyed by AU number as association lists
`List (ℕ × _)` in insertion order (Python dicts preserve insertion order and
have no duplicate keys).
-/

/-- A 2-D landmark point (one row of the numpy `(68, 2)` array). -/
abbrev Pt : Type := ℚ × ℚ

/-- The landmark array as used by the detectors: index → point
(numpy fancy indexing; the detectors assume a well-formed 68-row array). -/
abbrev Lms : Type := ℕ → Pt

/-- A string-keyed float dict (`distances` / `angles`). -/
abbrev DistMap : Type := String → Option ℚ

/-- `d.get(k, v)` on a Python dict. -/
def dgetD (d : DistMap) (k : String) (v : ℚ) : ℚ := (d k).getD v

/-- `np.clip(x, lo, hi)`. -/
def qclip (x lo hi : ℚ) : ℚ := min (max x lo) hi

/-- `np.linalg.norm(p - q)` and `np.sqrt(np.sum((p - q) ** 2))`, with the
square root supplied as the abstract primitive `sqrtA`. -/
def npnorm (sqrtA : ℚ → ℚ) (p q : Pt) : ℚ :=
  sqrtA ((p.1 - q.1) ^ 2 + (p.2 - q.2) ^ 2)

/-- `facs.core.enums.AUIntensity`. -/
inductive AUIntensity where
  | ABSENT | TRACE | SLIGHT | MARKED | SEVERE | MAXIMUM
deriving DecidableEq, Repr

/-- `facs.core.models.AUDetectionResult`. -/
structure AUDetectionResult where
  au_number : ℕ
  name : String
  detected : Bool
  confidence : ℚ
  intensity : AUIntensity
  raw_score : ℚ
  asymmetry : ℚ
deriving DecidableEq, Repr

/-- `facs.core.models.ActionUnitDefinition`. -/
structure ActionUnitDefinition where
  au_number : ℕ
  name : String
  description : String
  muscular_basis : String
  landmarks_involved : List ℕ
deriving DecidableEq, Repr

/-- `facs.config.au_definitions.AU_DEFINITIONS` (descriptions and muscular
bases elided to `""`: no claim inspects them; numbers, names and landmark
index tuples are kept). -/
def AU_DEFINITIONS : List (ℕ × ActionUnitDefinition) :=
  [ (1, ⟨1, "Inner Brow Raiser", "", "", [17, 18, 19, 20, 21, 22, 23, 24, 25, 26, 27]⟩),
    (2, ⟨2, "Outer Brow Raiser", "", "", [17, 18, 19, 20, 21, 22, 23, 24, 25, 26]⟩),
    (4, ⟨4, "Brow Lowerer", "", "", [17, 18, 19, 20, 21, 22, 23, 24, 25, 26, 27, 28]⟩),
    (5, ⟨5, "Upper Lid Raiser", "", "", [36, 37, 38, 39, 40, 41, 42, 43, 44, 45, 46, 47]⟩),
    (6, ⟨6, "Cheek Raiser", "", "", [36, 37, 38, 39, 40, 41, 42, 43, 44, 45, 46, 47, 48, 54]⟩),
    (7, ⟨7, "Lid Tightener", "", "", [36, 37, 38, 39, 40, 41, 42, 43, 44, 45, 46, 47]⟩),
    (9, ⟨9, "Nose Wrinkler", "", "", [27, 28, 29, 30, 31, 32, 33, 34, 35]⟩),
    (10, ⟨10, "Upper Lip Raiser", "", "", [31, 32, 33, 34, 35, 48, 49, 50, 51, 52]⟩),
    (12, ⟨12, "Lip Corner Puller", "", "", [48, 54, 60, 64]⟩),
    (15, ⟨15, "Lip Corner Depressor", "", "", [48, 54, 55, 56, 57, 58, 59]⟩),
    (17, ⟨17, "Chin Raiser", "", "", [7, 8, 9, 55, 56, 57, 58, 59]⟩),
    (20, ⟨20, "Lip Stretcher", "", "", [48, 54, 60, 64]⟩),
    (23, ⟨23, "Lip Tightener", "", "", [48, 49, 50, 51, 52, 53, 54, 55, 56, 57, 58, 59]⟩),
    (25, ⟨25, "Lips Part", "", "", [48, 49, 50, 51, 52, 53, 54, 55, 56, 57, 58, 59]⟩),
    (26, ⟨26, "Jaw Drop", "", "", [5, 6, 7, 8, 9, 10, 11, 48, 54]⟩),
    (43, ⟨43, "Eyes Closed", "", "", [36, 37, 38, 39, 40, 41, 42, 43, 44, 45, 46, 47]⟩) ]

/-- The key set of `AU_DEFINITIONS`. -/
def auDefKeys : List ℕ := AU_DEFINITIONS.map Prod.fst

/-- `eye_dist = max(distances.get("eye_distance", 1.0), 1e-6)` — the first
line of both detectors' `detect_all`. -/
def eyeDist (d : DistMap) : ℚ := max (dgetD d "eye_distance" 1) (1e-6 : ℚ)

namespace AUDetector

/-- `AUDetector.__init__` builds `self._thresholds = {au: {"low": 0.15,
"high": 0.4} for au in AU_DEFINITIONS.keys()}`; `detect_all` reads it back
with the same `{"low": 0.15, "high": 0.4}` default, so every AU gets this
one pair. -/
def thresholds (_au : ℕ) : ℚ × ℚ := ((0.15 : ℚ), (0.4 : ℚ))

/-- `AUDetector._score_to_intensity`. -/
def score_to_intensity (score low high : ℚ) : AUIntensity :=
  if score < low * 0.5 then .ABSENT
  else if score < low then .TRACE
  else if score < high * 0.66 then .SLIGHT
  else if score < high then .MARKED
  else if score < high * 1.3 then .SEVERE
  else .MAXIMUM

/-- `AUDetector._detect_au1`. -/
def detect_au1 (lms : Lms) (eye_dist : ℚ) : ℚ × ℚ :=
  let right_dist := ((lms 27).2 - (lms 21).2) / eye_dist
  let left_dist := ((lms 27).2 - (lms 22).2) / eye_dist
  let score := max 0 (((right_dist + left_dist) / 2 - 0.18) / 0.12)
  (min score 1, qclip (left_dist - right_dist) (-1) 1)

/-- `AUDetector._detect_au2`. -/
def detect_au2 (lms : Lms) (eye_dist : ℚ) : ℚ × ℚ :=
  let right_dist := ((lms 36).2 - (lms 17).2) / eye_dist
  let left_dist := ((lms 45).2 - (lms 26).2) / eye_dist
  let score := max 0 (((right_dist + left_dist) / 2 - 0.15) / 0.1)
  (min score 1, qclip (left_dist - right_dist) (-1) 1)

/-- `AUDetector._detect_au4`. -/
def detect_au4 (d : DistMap) (eye_dist : ℚ) : ℚ × ℚ :=
  let brow_dist := dgetD d "brow_distance" (eye_dist * 0.3) / eye_dist
  (min (max 0 ((0.35 - brow_dist) / 0.12)) 1, 0)

/-- `AUDetector._detect_au5`. -/
def detect_au5 (d : DistMap) : ℚ × ℚ :=
  let ear := (dgetD d "right_eye_aspect_ratio" 0.25 + dgetD d "left_eye_aspect_ratio" 0.25) / 2
  (min (max 0 ((ear - 0.28) / 0.12)) 1, 0)

/-- `AUDetector._detect_au6`. -/
def detect_au6 (sqrtA : ℚ → ℚ) (lms : Lms) (eye_dist : ℚ) : ℚ × ℚ :=
  let right_eye_bottom : Pt := (((lms 40).1 + (lms 41).1) / 2, ((lms 40).2 + (lms 41).2) / 2)
  let left_eye_bottom : Pt := (((lms 46).1 + (lms 47).1) / 2, ((lms 46).2 + (lms 47).2) / 2)
  let right_dist := npnorm sqrtA right_eye_bottom (lms 48) / eye_dist
  let left_dist := npnorm sqrtA left_eye_bottom (lms 54) / eye_dist
  let score := max 0 ((0.75 - (right_dist + left_dist) / 2) / 0.18)
  (min score 1, qclip (left_dist - right_dist) (-1) 1)

/-- `AUDetector._detect_au7`. -/
def detect_au7 (d : DistMap) : ℚ × ℚ :=
  let ear := (dgetD d "right_eye_aspect_ratio" 0.25 + dgetD d "left_eye_aspect_ratio" 0.25) / 2
  (min (max 0 ((0.25 - ear) / 0.1)) 1, 0)

/-- `AUDetector._detect_au12`. -/
def detect_au12 (lms : Lms) (d : DistMap) (eye_dist : ℚ) : ℚ × ℚ :=
  let right_elev := ((lms 51).2 - (lms 48).2) / eye_dist
  let left_elev := ((lms 51).2 - (lms 54).2) / eye_dist
  let mouth_width := dgetD d "mouth_width" (eye_dist * 0.5) / eye_dist
  let score := max 0 (((right_elev + left_elev) / 2 - 0.02) / 0.06) * 0.7 +
    max 0 ((mouth_width - 0.48) / 0.1) * 0.3
  (min score 1, qclip (left_elev - right_elev) (-1) 1)

/-- `AUDetector._detect_au25`. -/
def detect_au25 (d : DistMap) (eye_dist : ℚ) : ℚ × ℚ :=
  let mouth_height := dgetD d "mouth_height_inner" 0 / eye_dist
  (min (max 0 ((mouth_height - 0.02) / 0.08)) 1, 0)

/-- `AUDetector._detect_au26`. -/
def detect_au26 (d : DistMap) (eye_dist : ℚ) : ℚ × ℚ :=
  let mouth_height := dgetD d "mouth_height_outer" 0 / eye_dist
  (min (max 0 ((mouth_height - 0.05) / 0.12)) 1, 0)

/-- `AUDetector._detect_au43`. -/
def detect_au43 (d : DistMap) : ℚ × ℚ :=
  let ear := (dgetD d "right_eye_aspect_ratio" 0.25 + dgetD d "left_eye_aspect_ratio" 0.25) / 2
  (min (max 0 ((0.2 - ear) / 0.15)) 1, 0)

/-- `AUDetector._detect_builtin` (the `angles` argument is threaded through
for signature fidelity; the builtin strategies never read it). -/
def detect_builtin (sqrtA : ℚ → ℚ) (au : ℕ) (lms : Lms) (d : DistMap)
    (_angles : DistMap) (eye_dist : ℚ) : ℚ × ℚ :=
  if au = 1 then detect_au1 lms eye_dist
  else if au = 2 then detect_au2 lms eye_dist
  else if au = 4 then detect_au4 d eye_dist
  else if au = 5 then detect_au5 d
  else if au = 6 then detect_au6 sqrtA lms eye_dist
  else if au = 7 then detect_au7 d
  else if au = 12 then detect_au12 lms d eye_dist
  else if au = 25 then detect_au25 d eye_dist
  else if au = 26 then detect_au26 d eye_dist
  else if au = 43 then detect_au43 d
  else (0, 0)

/-- The `AUDetectionResult` that `AUDetector.detect_all` stores for AU
`au` from the strategy output `rs = (raw_score, asymmetry)`:
`detected = raw_score >= low`, `confidence = min(raw_score/high, 1.0) if
raw_score > 0 else 0.0`, intensity via `_score_to_intensity`. -/
def assemble (au : ℕ) (nm : String) (rs : ℚ × ℚ) : AUDetectionResult :=
  { au_number := au
    name := nm
    detected := decide ((thresholds au).1 ≤ rs.1)
    confidence := if 0 < rs.1 then min (rs.1 / (thresholds au).2) 1 else 0
    intensity := score_to_intensity rs.1 (thresholds au).1 (thresholds au).2
    raw_score := rs.1
    asymmetry := rs.2 }

/-- `AUDetector.detect_all`, with the default (empty) strategy registry, so
every AU goes through `_detect_builtin`. -/
def detect_all (sqrtA : ℚ → ℚ) (lms : Lms) (d : DistMap) (angles : DistMap) :
    List (ℕ × AUDetectionResult) :=
  AU_DEFINITIONS.map (fun p =>
    (p.1, assemble p.1 p.2.name (detect_builtin sqrtA p.1 lms d angles (eyeDist d))))

end AUDetector

namespace VectorizedAUDetector

/-- `VectorizedAUDetector.AU_NUMBERS`. -/
def AU_NUMBERS : List ℕ := [1, 2, 4, 5, 6, 7, 9, 12, 15, 25, 26, 43]

/-- `VectorizedAUDetector.THRESHOLDS`: every row of the table is
`[au, 0.15, 0.4]`. -/
def thresholds (_au : ℕ) : ℚ × ℚ := ((0.15 : ℚ), (0.4 : ℚ))

/-- `VectorizedAUDetector._score_to_intensity_fast`. -/
def score_to_intensity_fast (score low high : ℚ) : AUIntensity :=
  if score < low * 0.5 then .ABSENT
  else if score < low then .TRACE
  else if score < high * 0.66 then .SLIGHT
  else if score < high then .MARKED
  else if score < high * 1.3 then .SEVERE
  else .MAXIMUM

/-- The `(scores[i], asymmetries[i])` pair that
`VectorizedAUDetector._compute_all_scores_vectorized` writes for AU `au`. -/
def compute_score (sqrtA : ℚ → ℚ) (lms : Lms) (d : DistMap) (eye_dist : ℚ)
    (au : ℕ) : ℚ × ℚ :=
  let right_ear := dgetD d "right_eye_aspect_ratio" 0.25
  let left_ear := dgetD d "left_eye_aspect_ratio" 0.25
  let avg_ear := (right_ear + left_ear) / 2
  if au = 1 then
    let right_dist := ((lms 27).2 - (lms 21).2) / eye_dist
    let left_dist := ((lms 27).2 - (lms 22).2) / eye_dist
    let avg_dist := (right_dist + left_dist) / 2
    (qclip ((avg_dist - 0.18) / 0.12) 0 1, qclip (left_dist - right_dist) (-1) 1)
  else if au = 2 then
    let right_dist := ((lms 36).2 - (lms 17).2) / eye_dist
    let left_dist := ((lms 45).2 - (lms 26).2) / eye_dist
    let avg_dist := (right_dist + left_dist) / 2
    (qclip ((avg_dist - 0.15) / 0.1) 0 1, qclip (left_dist - right_dist) (-1) 1)
  else if au = 4 then
    let brow_dist := dgetD d "brow_distance" (eye_dist * 0.3)
    (qclip ((0.35 - brow_dist / eye_dist) / 0.12) 0 1, 0)
  else if au = 5 then
    (qclip ((avg_ear - 0.28) / 0.12) 0 1, qclip (left_ear - right_ear) (-1) 1)
  else if au = 6 then
    let right_eye_bottom : Pt := (((lms 40).1 + (lms 41).1) / 2, ((lms 40).2 + (lms 41).2) / 2)
    let left_eye_bottom : Pt := (((lms 46).1 + (lms 47).1) / 2, ((lms 46).2 + (lms 47).2) / 2)
    let right_dist := npnorm sqrtA right_eye_bottom (lms 48) / eye_dist
    let left_dist := npnorm sqrtA left_eye_bottom (lms 54) / eye_dist
    let right_score := qclip ((0.75 - right_dist) / 0.18) 0 1
    let left_score := qclip ((0.75 - left_dist) / 0.18) 0 1
    ((right_score + left_score) / 2, qclip (left_score - right_score) (-1) 1)
  else if au = 7 then
    (qclip ((0.25 - avg_ear) / 0.1) 0 1, qclip (right_ear - left_ear) (-1) 1)
  else if au = 43 then
    (qclip ((0.2 - avg_ear) / 0.15) 0 1, qclip (right_ear - left_ear) (-1) 1)
  else if au = 9 then
    let dist9 := npnorm sqrtA (lms 51) (lms 30) / eye_dist
    (qclip ((0.35 - dist9) / 0.12) 0 1, 0)
  else if au = 12 then
    let right_elev := ((lms 51).2 - (lms 48).2) / eye_dist
    let left_elev := ((lms 51).2 - (lms 54).2) / eye_dist
    let mouth_width_norm := dgetD d "mouth_width" (eye_dist * 0.5) / eye_dist
    let right_score := qclip ((right_elev - 0.02) / 0.06) 0 1 * 0.7 +
      qclip ((mouth_width_norm - 0.48) / 0.1) 0 1 * 0.3
    let left_score := qclip ((left_elev - 0.02) / 0.06) 0 1 * 0.7 +
      qclip ((mouth_width_norm - 0.48) / 0.1) 0 1 * 0.3
    (qclip ((right_score + left_score) / 2) 0 1, qclip (left_elev - right_elev) (-1) 1)
  else if au = 15 then
    let right_dep := ((lms 48).2 - (lms 57).2) / eye_dist
    let left_dep := ((lms 54).2 - (lms 57).2) / eye_dist
    let right_score := qclip ((right_dep - 0) / 0.05) 0 1
    let left_score := qclip ((left_dep - 0) / 0.05) 0 1
    ((right_score + left_score) / 2, qclip (left_score - right_score) (-1) 1)
  else if au = 25 then
    (qclip ((dgetD d "mouth_height_inner" 0 / eye_dist - 0.02) / 0.08) 0 1, 0)
  else if au = 26 then
    (qclip ((dgetD d "mouth_height_outer" 0 / eye_dist - 0.05) / 0.12) 0 1, 0)
  else (0, 0)

/-- The `AUDetectionResult` that `VectorizedAUDetector.detect_all` stores
for AU `au` from `rs = (scores[i], asymmetries[i])`: the same
detected/confidence recipe as the scalar detector, intensity via
`_score_to_intensity_fast`. -/
def assemble (au : ℕ) (nm : String) (rs : ℚ × ℚ) : AUDetectionResult :=
  { au_number := au
    name := nm
    detected := decide ((thresholds au).1 ≤ rs.1)
    confidence := if 0 < rs.1 then min (rs.1 / (thresholds au).2) 1 else 0
    intensity := score_to_intensity_fast rs.1 (thresholds au).1 (thresholds au).2
    raw_score := rs.1
    asymmetry := rs.2 }

/-- `VectorizedAUDetector.detect_all` (iterates `AU_NUMBERS`, skipping any
number absent from `AU_DEFINITIONS`). -/
def detect_all (sqrtA : ℚ → ℚ) (lms : Lms) (d : DistMap) (_angles : DistMap) :
    List (ℕ × AUDetectionResult) :=
  AU_NUMBERS.filterMap (fun au =>
    match AU_DEFINITIONS.lookup au with
    | none => none
    | some audef =>
      some (au, assemble au audef.name (compute_score sqrtA lms d (eyeDist d) au)))

end VectorizedAUDetector

/-- Keys of an AU-keyed result map. -/
def mapKeys {α : Type} (m : List (ℕ × α)) : List ℕ := m.map Prod.fst

/-- The inputs used for the concrete evaluations below: all landmarks at
the origin, a distances dict carrying only `eye_distance = 1` and the two
eye-aspect ratios `1/2` (left) and `1/4` (right), no angles, and the
trivial square-root stand-in. -/
def lms0 : Lms := fun _ => (0, 0)

def d0 : DistMap := fun s =>
  if s = "eye_distance" then some 1
  else if s = "left_eye_aspect_ratio" then some (1 / 2)
  else if s = "right_eye_aspect_ratio" then some (1 / 4)
  else none

def a0 : DistMap := fun _ => none

def sq0 : ℚ → ℚ := fun _ => 0

/-- `facs.core.models.IntensityResult`. -/
structure IntensityResult where
  au_number : ℕ
  intensity : AUIntensity
  intensity_value : ℚ
  intensity_label : String
  confidence : ℚ
deriving DecidableEq, Repr

namespace IntensityEstimator

/-- `IntensityEstimator.INTENSITY_LABELS`. -/
def INTENSITY_LABELS : AUIntensity → String
  | .ABSENT => "-"
  | .TRACE => "A"
  | .SLIGHT => "B"
  | .MARKED => "C"
  | .SEVERE => "D"
  | .MAXIMUM => "E"

/-- `IntensityEstimator.estimate`. -/
def estimate (au_result : AUDetectionResult) : IntensityResult :=
  if au_result.detected = false then
    { au_number := au_result.au_number
      intensity := .ABSENT
      intensity_value := 0
      intensity_label := "-"
      confidence := au_result.confidence }
  else
    let intensity_value := au_result.raw_score * 5
    let intensity : AUIntensity :=
      if intensity_value < 0.5 then .ABSENT
      else if intensity_value < 1.5 then .TRACE
      else if intensity_value < 2.5 then .SLIGHT
      else if intensity_value < 3.5 then .MARKED
      else if intensity_value < 4.5 then .SEVERE
      else .MAXIMUM
    { au_number := au_result.au_number
      intensity := intensity
      intensity_value := intensity_value
      intensity_label := INTENSITY_LABELS intensity
      confidence := au_result.confidence }

/-- `IntensityEstimator.estimate_all`. -/
def estimate_all (au_results : List (ℕ × AUDetectionResult)) :
    List (ℕ × IntensityResult) :=
  au_results.map (fun p => (p.1, estimate p.2))

/-- The sort key of `active.sort(key=lambda x: x[0])`: ascending AU
number. -/
def auOrd (a b : ℕ × String) : Prop := a.1 ≤ b.1

instance : DecidableRel auOrd := fun _a _b => inferInstanceAs (Decidable (_ ≤ _))

instance : IsTotal (ℕ × String) auOrd := ⟨fun a b => le_total a.1 b.1⟩

instance : IsTrans (ℕ × String) auOrd := ⟨fun _ _ _ h h' => le_trans h h'⟩

/-- The `active` list built by `format_facs_code`: the `(au_number,
intensity_label)` pairs of the map's values whose intensity is not
ABSENT. -/
def activeEntries (intensity_results : List (ℕ × IntensityResult)) :
    List (ℕ × String) :=
  intensity_results.filterMap (fun p =>
    if p.2.intensity ≠ .ABSENT then some (p.2.au_number, p.2.intensity_label) else none)

/-- `IntensityEstimator.format_facs_code`. -/
def format_facs_code (intensity_results : List (ℕ × IntensityResult)) : String :=
  let active := activeEntries intensity_results
  if active.isEmpty then "Neutral"
  else
    let sorted := List.insertionSort auOrd active
    String.intercalate " + " (sorted.map (fun p => "AU" ++ toString p.1 ++ p.2))

end IntensityEstimator

/-- `facs.core.models.EmotionDefinition`. -/
structure EmotionDefinition where
  name : String
  required_aus : List ℕ
  optional_aus : List ℕ
  description : String
  valence : ℚ
  arousal : ℚ
deriving DecidableEq, Repr

/-- `facs.config.au_definitions.EMOTION_DEFINITIONS` (in dict insertion
order; descriptions elided to `""`). -/
def EMOTION_DEFINITIONS : List EmotionDefinition :=
  [ ⟨"happiness", [6, 12], [25, 26], "", 1.0, 0.5⟩,
    ⟨"sadness", [1, 4, 15], [6, 17], "", -0.7, -0.3⟩,
    ⟨"surprise", [1, 2, 5, 26], [27], "", 0.0, 0.8⟩,
    ⟨"fear", [1, 2, 4, 5, 20, 26], [7, 25], "", -0.8, 0.9⟩,
    ⟨"anger", [4, 5, 7, 23], [10, 17, 25, 26], "", -0.8, 0.7⟩,
    ⟨"disgust", [9, 15], [4, 6, 10, 17], "", -0.6, 0.3⟩,
    ⟨"contempt", [12], [], "", -0.4, 0.1⟩ ]

/-- `facs.core.models.EmotionResult`.  The Python `matched_aus` /
`missing_aus` fields are `list(...)` of sets materialised in unspecified set
order; they are modelled as the `Finset`s themselves (no claim reads an
order off them). -/
structure EmotionResult where
  emotion : String
  confidence : ℚ
  valence : ℚ
  arousal : ℚ
  matched_aus : Finset ℕ
  missing_aus : Finset ℕ
  description : String
deriving DecidableEq

namespace EmotionMapper

/-- `facs.estimators.emotion_mapper.EmotionMapper._evaluate_emotion` (the
`name` argument of the Python method is the dict key, equal to
`definition.name`). -/
def evaluate_emotion (defn : EmotionDefinition) (detected_aus : Finset ℕ)
    (au_intensities : ℕ → ℚ) : Option EmotionResult :=
  let required := defn.required_aus.toFinset
  let optional := defn.optional_aus.toFinset
  if required = ∅ then none
  else
    let matched_required := required ∩ detected_aus
    let missing_required := required \ detected_aus
    let matched_optional := optional ∩ detected_aus
    let match_frac := (matched_required.card : ℚ) / (required.card : ℚ)
    if match_frac < 0.5 then none
    else
      let conf₀ := match_frac * 0.7 +
        (if optional ≠ ∅ then (matched_optional.card : ℚ) / (optional.card : ℚ) * 0.2 else 0)
      let intensity_bonus :=
        (matched_required ∪ matched_optional).sum (fun au => au_intensities au / 5 * 0.02)
      some
        { emotion := defn.name
          confidence := min (conf₀ + intensity_bonus) 1
          valence := defn.valence
          arousal := defn.arousal
          matched_aus := matched_required ∪ matched_optional
          missing_aus := missing_required
          description := defn.description }

/-- `EmotionMapper._get_intensities` followed by the `.get(au, 0)` reads
(`intensity_results = []` models the Python `None`/empty cases, both falsy). -/
def get_intensities (au_results : List (ℕ × AUDetectionResult))
    (intensity_results : List (ℕ × IntensityResult)) : ℕ → ℚ :=
  fun au =>
    if intensity_results.isEmpty then
      ((au_results.lookup au).map (fun r => r.raw_score * 5)).getD 0
    else
      ((intensity_results.lookup au).map (fun r => r.intensity_value)).getD 0

/-- The synthetic "neutral" `EmotionResult`. -/
def neutralResult (c : ℚ) : EmotionResult :=
  ⟨"neutral", c, 0, 0, ∅, ∅, ""⟩

/-- Sorting key used by `emotions.sort(key=lambda x: x.confidence,
reverse=True)`: descending confidence. -/
def confDesc (a b : EmotionResult) : Prop := b.confidence ≤ a.confidence

instance : DecidableRel confDesc := fun _a _b => inferInstanceAs (Decidable (_ ≤ _))

instance : IsTotal EmotionResult confDesc := ⟨fun a b => le_total b.confidence a.confidence⟩

instance : IsTrans EmotionResult confDesc := ⟨fun _ _ _ h h' => le_trans h' h⟩

/-- The `emotions` list accumulated by `EmotionMapper.map` before sorting:
one entry per emotion definition that `_evaluate_emotion` accepted. -/
def candidates (detected_aus : Finset ℕ) (au_intensities : ℕ → ℚ) :
    List EmotionResult :=
  EMOTION_DEFINITIONS.filterMap
    (fun defn => evaluate_emotion defn detected_aus au_intensities)

/-- The body of `EmotionMapper.map` after `detected_aus` / `au_intensities`
have been read off the result maps: evaluate every definition, sort by
descending confidence, and prepend the synthetic neutral result when nothing
matched or the top confidence is below 0.3. -/
def map_core (detected_aus : Finset ℕ) (au_intensities : ℕ → ℚ) :
    List EmotionResult :=
  let sorted := List.insertionSort confDesc (candidates detected_aus au_intensities)
  match sorted with
  | [] => [neutralResult 1.0]
  | top :: rest =>
    if top.confidence < 0.3 then neutralResult (1.0 - top.confidence) :: top :: rest
    else top :: rest

/-- `EmotionMapper.map`. -/
def mapper_map (au_results : List (ℕ × AUDetectionResult))
    (intensity_results : List (ℕ × IntensityResult)) : List EmotionResult :=
  let detected_aus : Finset ℕ :=
    (au_results.filterMap (fun p => if p.2.detected then some p.1 else none)).toFinset
  map_core detected_aus (get_intensities au_results intensity_results)

/-- `EmotionMapper.get_valence_arousal`. -/
def get_valence_arousal (au_results : List (ℕ × AUDetectionResult))
    (intensity_results : List (ℕ × IntensityResult)) : ℚ × ℚ :=
  let emotions := mapper_map au_results intensity_results
  if emotions.isEmpty then (0, 0)
  else
    let total := (emotions.map EmotionResult.confidence).sum
    if total = 0 then (0, 0)
    else ((emotions.map (fun e => e.valence * e.confidence)).sum / total,
          (emotions.map (fun e => e.arousal * e.confidence)).sum / total)

end EmotionMapper

/-- An AU-keyed detection-result map (a Python dict in insertion order). -/
abbrev AUMap : Type := List (ℕ × AUDetectionResult)

namespace TemporalFilter

/-- The history after `update` appends the new map and pops the oldest
entry when the window overflows (`self._history.append(...)` followed by
the conditional `pop(0)`). -/
def newHist (window_size : ℕ) (hist : List AUMap) (au_results : AUMap) :
    List AUMap :=
  let h₁ := hist ++ [au_results]
  if window_size < h₁.length then h₁.tail else h₁

/-- One iteration of the `for au_num in au_results.keys()` smoothing loop:
the window means of `raw_score` and `confidence` for key `au_num`, with the
other fields taken from the current frame's entry. -/
def smoothedEntry (h₂ : List AUMap) (au_results : AUMap) (au_num : ℕ) :
    Option (ℕ × AUDetectionResult) :=
  let scores := h₂.filterMap (fun h => (h.lookup au_num).map AUDetectionResult.raw_score)
  let confs := h₂.filterMap (fun h => (h.lookup au_num).map AUDetectionResult.confidence)
  if scores.isEmpty then none
  else (au_results.lookup au_num).map (fun au =>
    (au_num, { au with
      confidence := confs.sum / (confs.length : ℚ)
      raw_score := scores.sum / (scores.length : ℚ) }))

/-- `TemporalFilter.update` as explicit state passing: takes the history
list and the new frame's map, returns the new history and the returned
(smoothed) map. -/
def update (window_size : ℕ) (hist : List AUMap) (au_results : AUMap) :
    List AUMap × AUMap :=
  let h₂ := newHist window_size hist au_results
  if h₂.length < 2 then (h₂, au_results)
  else
    let smoothed := (au_results.map Prod.fst).filterMap (smoothedEntry h₂ au_results)
    (h₂, if smoothed.isEmpty then au_results else smoothed)

/-- History after `k` consecutive `update` calls, all fed the same map `m`. -/
def runHist (window_size : ℕ) (m : AUMap) : ℕ → List AUMap → List AUMap
  | 0, h => h
  | k + 1, h => runHist window_size m k (update window_size h m).1

/-- The map returned by call number `k + 1` when every call is fed `m`. -/
def runOut (window_size : ℕ) (m : AUMap) (k : ℕ) (h : List AUMap) : AUMap :=
  (update window_size (runHist window_size m k h) m).2

end TemporalFilter

/-- The irrational numpy primitives used by the feature-extraction path,
kept abstract: `sqrtA` is `np.sqrt`, `atan2degA x y` is
`np.degrees(np.arctan2(x, y))`, and `cosNegRadA r` / `sinNegRadA r` are
`np.cos(-np.radians(r))` / `np.sin(-np.radians(r))`. -/
structure NumPrims where
  sqrtA : ℚ → ℚ
  atan2degA : ℚ → ℚ → ℚ
  cosNegRadA : ℚ → ℚ
  sinNegRadA : ℚ → ℚ

/-- numpy slice `l[a:b]` (never raises; shorter than `b - a` when the array
is short). -/
def npslice {α : Type} (l : List α) (a b : ℕ) : List α := (l.drop a).take (b - a)

/-- `np.mean(pts, axis=0)`.  On an empty slice numpy emits a warning and
yields `nan` without raising; the model yields `0/0 = 0`, which is adequate
because only the raise/no-raise structure and the full-length values are
ever used. -/
def meanPt (pts : List Pt) : Pt :=
  ((pts.map Prod.fst).sum / (pts.length : ℚ), (pts.map Prod.snd).sum / (pts.length : ℚ))

/-- `facs.detectors.face_aligner.FaceAlignment`. -/
structure FaceAlignmentQ where
  rotation_angle : ℚ
  scale : ℚ
  center : Pt
  eye_distance : ℚ
  roll : ℚ
  yaw : ℚ
  pitch : ℚ
deriving DecidableEq, Repr

namespace FaceAligner

/-- `FaceAligner.compute_alignment`.  `none` models an uncaught
`IndexError` (a scalar index past the end of the array); a numpy division
by a zero `eye_distance` yields `inf`/`nan` without raising, modelled by
`ℚ`'s total division. -/
def compute_alignment (P : NumPrims) (lms : List Pt) : Option FaceAlignmentQ := do
  let left_eye_center := meanPt (npslice lms 42 48)
  let right_eye_center := meanPt (npslice lms 36 42)
  let eye_distance := npnorm P.sqrtA left_eye_center right_eye_center
  let face_center : Pt := ((left_eye_center.1 + right_eye_center.1) / 2,
    (left_eye_center.2 + right_eye_center.2) / 2)
  let roll_angle := P.atan2degA (left_eye_center.2 - right_eye_center.2)
    (left_eye_center.1 - right_eye_center.1)
  let nose_tip ← lms.get? 30
  let yaw_estimate := qclip ((nose_tip.1 - face_center.1) / (eye_distance * 0.3) * 30) (-45) 45
  let m48 ← lms.get? 48
  let m54 ← lms.get? 54
  let mouth_center : Pt := ((m48.1 + m54.1) / 2, (m48.2 + m54.2) / 2)
  let nose_to_mouth := mouth_center.2 - nose_tip.2
  let expected_distance := eye_distance * 0.6
  let pitch_estimate := qclip ((nose_to_mouth - expected_distance) / expected_distance * 30) (-30) 30
  return {
      rotation_angle := roll_angle
      scale := eye_distance
      center := face_center
      eye_distance := eye_distance
      roll := roll_angle
      yaw := yaw_estimate
      pitch := pitch_estimate }

/-- `FaceAligner.normalize_landmarks` (with an explicitly supplied
alignment): centre, rotate by `-radians(roll)`, scale when
`eye_distance > 0`. -/
def normalize_landmarks (P : NumPrims) (lms : List Pt) (al : FaceAlignmentQ) : List Pt :=
  lms.map (fun p =>
    let c : Pt := (p.1 - al.center.1, p.2 - al.center.2)
    let co := P.cosNegRadA al.roll
    let si := P.sinNegRadA al.roll
    let r : Pt := (c.1 * co - c.2 * si, c.1 * si + c.2 * co)
    if 0 < al.eye_distance then (r.1 / al.eye_distance, r.2 / al.eye_distance) else r)

end FaceAligner

namespace FeatureExtractor

/-- `FeatureExtractor._compute_eye_distance`. -/
def compute_eye_distance (P : NumPrims) (lms : List Pt) : ℚ :=
  max (npnorm P.sqrtA (meanPt (npslice lms 42 48)) (meanPt (npslice lms 36 42))) (1e-6 : ℚ)

/-- `FeatureExtractor._compute_distances_internal`.  `none` models an
uncaught `IndexError` from a scalar index into a too-short slice (the
sequence of scalar index reads is collapsed into one simultaneous pattern
match: the call raises iff at least one read is out of range); note the
function contains no landmark-count validation of its own. -/
def compute_distances_internal (P : NumPrims) (lms : List Pt) (scale : ℚ) :
    Option (List (String × ℚ)) :=
  let right_eye := npslice lms 36 42
  let left_eye := npslice lms 42 48
  let outer_mouth := npslice lms 48 60
  let inner_mouth := npslice lms 60 68
  let right_eyebrow := npslice lms 17 22
  let left_eyebrow := npslice lms 22 27
  match right_eye.get? 1, right_eye.get? 5, right_eye.get? 2, right_eye.get? 4,
        right_eye.get? 0, right_eye.get? 3,
        left_eye.get? 1, left_eye.get? 5, left_eye.get? 2, left_eye.get? 4,
        left_eye.get? 0, left_eye.get? 3,
        outer_mouth.get? 0, outer_mouth.get? 6, outer_mouth.get? 3, outer_mouth.get? 9,
        inner_mouth.get? 2, inner_mouth.get? 6,
        right_eyebrow.get? 4, left_eyebrow.get? 0 with
  | some re1, some re5, some re2, some re4, some re0, some re3,
    some le1, some le5, some le2, some le4, some le0, some le3,
    some om0, some om6, some om3, some om9, some im2, some im6,
    some rb4, some lb0 =>
    let right_eye_height := (npnorm P.sqrtA re1 re5 + npnorm P.sqrtA re2 re4) / 2
    let right_eye_width := npnorm P.sqrtA re0 re3
    let left_eye_height := (npnorm P.sqrtA le1 le5 + npnorm P.sqrtA le2 le4) / 2
    let left_eye_width := npnorm P.sqrtA le0 le3
    let mouth_width := npnorm P.sqrtA om0 om6
    let mouth_height_outer := npnorm P.sqrtA om3 om9
    let mouth_height_inner := npnorm P.sqrtA im2 im6
    let brow_distance := npnorm P.sqrtA rb4 lb0
    some [
      ("right_eye_aspect_ratio", right_eye_height / max right_eye_width (1e-6 : ℚ)),
      ("left_eye_aspect_ratio", left_eye_height / max left_eye_width (1e-6 : ℚ)),
      ("right_eye_height", right_eye_height * scale),
      ("left_eye_height", left_eye_height * scale),
      ("right_eye_width", right_eye_width * scale),
      ("left_eye_width", left_eye_width * scale),
      ("mouth_width", mouth_width * scale),
      ("mouth_height_outer", mouth_height_outer * scale),
      ("mouth_height_inner", mouth_height_inner * scale),
      ("mouth_aspect_ratio", mouth_height_outer / max mouth_width (1e-6 : ℚ)),
      ("brow_distance", brow_distance * scale),
      ("eye_distance", scale) ]
  | _, _, _, _, _, _, _, _, _, _, _, _, _, _, _, _, _, _, _, _ => none

/-- `FeatureExtractor.compute_distances` with the constructor's
`use_alignment` flag.  Neither branch validates the landmark count. -/
def compute_distances (P : NumPrims) (use_alignment : Bool) (lms : List Pt) :
    Option (List (String × ℚ)) :=
  if use_alignment then do
    let al ← FaceAligner.compute_alignment P lms
    compute_distances_internal P (FaceAligner.normalize_landmarks P lms al) al.eye_distance
  else
    let eye_dist := compute_eye_distance P lms
    compute_distances_internal P (lms.map (fun p => (p.1 / eye_dist, p.2 / eye_dist))) eye_dist

/-- `FeatureExtractor._compute_angles_internal`. -/
def compute_angles_internal (P : NumPrims) (lms : List Pt) :
    Option (List (String × ℚ)) := do
  let right_eyebrow := npslice lms 17 22
  let left_eyebrow := npslice lms 22 27
  let outer_mouth := npslice lms 48 60
  let rb0 ← right_eyebrow.get? 0
  let rb4 ← right_eyebrow.get? 4
  let lb0 ← left_eyebrow.get? 0
  let lb4 ← left_eyebrow.get? 4
  let om0 ← outer_mouth.get? 0
  let om3 ← outer_mouth.get? 3
  let om6 ← outer_mouth.get? 6
  let om9 ← outer_mouth.get? 9
  let right_brow_angle := P.atan2degA (rb0.2 - rb4.2) (rb0.1 - rb4.1)
  let left_brow_angle := P.atan2degA (lb4.2 - lb0.2) (lb4.1 - lb0.1)
  let mouth_center_y := (om3.2 + om9.2) / 2
  let right_mouth_angle := P.atan2degA (om0.2 - mouth_center_y) (om0.1 - om3.1)
  let left_mouth_angle := P.atan2degA (om6.2 - mouth_center_y) (om6.1 - om3.1)
  return [
      ("right_brow_angle", right_brow_angle),
      ("left_brow_angle", left_brow_angle),
      ("right_mouth_angle", right_mouth_angle),
      ("left_mouth_angle", left_mouth_angle) ]

/-- `FeatureExtractor.compute_angles` with `use_alignment = True`;
`last_alignment` is the alignment cached by the preceding
`compute_distances` call (`none` when nothing was cached yet). -/
def compute_angles (P : NumPrims) (lms : List Pt)
    (last_alignment : Option FaceAlignmentQ) : Option (List (String × ℚ)) := do
  let al ← match last_alignment with
    | some a => some a
    | none => FaceAligner.compute_alignment P lms
  let normalized := FaceAligner.normalize_landmarks P lms al
  let angles ← compute_angles_internal P normalized
  return angles ++ [("face_roll", al.roll), ("face_yaw", al.yaw), ("face_pitch", al.pitch)]

end FeatureExtractor

/-- The `AnalysisResult` fields the claims read; defaults as in
`facs.core.models.AnalysisResult` (`has_landmarks` stands for
`face_data is not None and face_data.landmarks is not None`, which is
exactly the `is_valid` property). -/
structure AnalysisRec where
  has_landmarks : Bool
  au_results : AUMap
  intensity_results : List (ℕ × IntensityResult)
  emotions : List EmotionResult
  facs_code : String
  valence : ℚ
  arousal : ℚ

/-- A fresh `AnalysisResult()`: `is_valid = False` and every derived field
at its zero-value. -/
def AnalysisRec.empty : AnalysisRec :=
  ⟨false, [], [], [], "Neutral", 0, 0⟩

namespace FACSAnalyzer

/-- `FACSAnalyzer._analyze_balanced_mode` in the `use_optimized=False`
wiring cited by the spec (plain `FeatureExtractor` with its default
`use_alignment=True`, scalar `AUDetector`), as a function of the landmark
array the external detector produced (`none` = no face found).
`Except.error ()` models an exception escaping the method — the body has no
`try`/`except`, so an `IndexError` raised inside feature extraction
propagates to the caller.  Converting the landmark list to the detectors'
total index function is exact here: every index the detectors read is below
58, and the distance computation only succeeds on arrays of length ≥ 67. -/
def analyze_balanced (P : NumPrims) (landmarks : Option (List Pt)) :
    Except Unit AnalysisRec :=
  match landmarks with
  | none => .ok AnalysisRec.empty
  | some lms =>
    match FeatureExtractor.compute_distances P true lms with
    | none => .error ()
    | some dl =>
      match FeatureExtractor.compute_angles P lms (FaceAligner.compute_alignment P lms) with
      | none => .error ()
      | some al =>
        let lmsF : Lms := fun i => (lms.get? i).getD (0, 0)
        let dmap : DistMap := fun k => dl.lookup k
        let amap : DistMap := fun k => al.lookup k
        let au_results := AUDetector.detect_all P.sqrtA lmsF dmap amap
        let intensity_results := IntensityEstimator.estimate_all au_results
        let facs := IntensityEstimator.format_facs_code intensity_results
        let emotions := EmotionMapper.mapper_map au_results intensity_results
        let va := EmotionMapper.get_valence_arousal au_results intensity_results
        .ok ⟨true, au_results, intensity_results, emotions, facs, va.1, va.2⟩

end FACSAnalyzer

namespace ParallelFACSProcessor

/-- One `submit_frame` queue interaction under the claim's model (bounded
FIFO of capacity `cap`, no consumer, single-threaded caller): the `put`
with timeout succeeds exactly when fewer than `cap` frames are buffered;
on `Full` the `get_nowait` removes the single oldest frame and the retried
`put` then succeeds. -/
def submit_queue_step {α : Type} (cap : ℕ) (q : List α) (x : α) : List α :=
  if q.length < cap then q ++ [x] else q.tail ++ [x]

/-- Consecutive `submit_frame` calls folded over a list of frames. -/
def submit_all {α : Type} (cap : ℕ) : List α → List α → List α
  | q, [] => q
  | q, x :: xs => submit_all cap (submit_queue_step cap q x) xs

/-- The possible queue outcomes of one `submit_frame` call once races with
worker processes are allowed: the first `put` may succeed; on `Full` the
`get_nowait` may drop the oldest frame and the retried `put` succeed; the
retried `put` may itself time out after the drop; or even the `get_nowait`
may raise.  The bare `except: pass` swallows the last two. -/
inductive PutOutcome where
  | ok
  | retryOk
  | retryPutFailed
  | retryGetFailed
deriving DecidableEq, Repr

/-- `ParallelFACSProcessor.submit_frame`: increments `_frame_counter`,
attempts the queue interaction with outcome `o`, and returns the counter
regardless of the outcome.  State is `(frame_counter, buffered frames)`. -/
def submit_frame (st : ℕ × List ℕ) (o : PutOutcome) : (ℕ × List ℕ) × ℕ :=
  let n := st.1 + 1
  let q := st.2
  let q' := match o with
    | .ok => q ++ [n]
    | .retryOk => q.tail ++ [n]
    | .retryPutFailed => q.tail
    | .retryGetFailed => q
  ((n, q'), n)

/-- State after `k` `submit_frame` calls from a fresh processor
(`_frame_counter = 0`, empty queue), with per-call outcomes `o`. -/
def submit_run (o : ℕ → PutOutcome) : ℕ → ℕ × List ℕ
  | 0 => (0, [])
  | k + 1 => (submit_frame (submit_run o k) (o k)).1

/-- The frame id returned by call number `k` (1-based). -/
def submit_ret (o : ℕ → PutOutcome) (k : ℕ) : ℕ :=
  (submit_frame (submit_run o (k - 1)) (o (k - 1))).2

end ParallelFACSProcessor

/-! ## Theorems -/

/-- The intensity step function exactly as the claim words it, with the
SLIGHT/MARKED boundary at `low + (high - low)/3`; a second definition
following the spec's words, to be compared with the code's
`_score_to_intensity`. -/
def claimedIntensityStep (x low high : ℚ) : AUIntensity :=
  if x < 0.5 * low then .ABSENT
  else if x < low then .TRACE
  else if x < low + (high - low) / 3 then .SLIGHT
  else if x < high then .MARKED
  else if x < 1.3 * high then .SEVERE
  else .MAXIMUM

/-- C3, counterexample: at `raw_score = 0.24` with the code's universal
thresholds `low = 0.15`, `high = 0.4`, both detectors' intensity functions
return SLIGHT while the claim's step function (SLIGHT/MARKED boundary at
`low + (high - low)/3 = 7/30 ≈ 0.2333`) returns MARKED. -/
theorem C3_claim_false :
    AUDetector.score_to_intensity 0.24 0.15 0.4 = .SLIGHT ∧
    VectorizedAUDetector.score_to_intensity_fast 0.24 0.15 0.4 = .SLIGHT ∧
    claimedIntensityStep 0.24 0.15 0.4 = .MARKED ∧
    AUIntensity.SLIGHT ≠ AUIntensity.MARKED ∧
    (0 : ℚ) ≤ 0.24 ∧ (0.24 : ℚ) ≤ 1 := by
  refine ⟨?_, ?_, ?_, by decide, by norm_num, by norm_num⟩
  · norm_num [AUDetector.score_to_intensity]
  · norm_num [VectorizedAUDetector.score_to_intensity_fast]
  · norm_num [claimedIntensityStep]

/-- C3, amended: the intensity assigned by both detectors is the fixed
6-way step function of `raw_score` with boundaries `0.5·low`, `low`,
`0.66·high` (not `low + ⅓·(high − low)`), `high` and `1.3·high`, provided
the boundaries are ordered (`0 ≤ low ≤ 0.66·high`, which holds for the
code's universal pair `low = 0.15`, `high = 0.4`); and the two detectors'
intensity functions agree everywhere. -/
theorem C3_intensity_steps (x low high : ℚ) (h0 : 0 ≤ low) (h1 : low ≤ 0.66 * high) :
    (x < 0.5 * low → AUDetector.score_to_intensity x low high = .ABSENT) ∧
    (0.5 * low ≤ x → x < low → AUDetector.score_to_intensity x low high = .TRACE) ∧
    (low ≤ x → x < 0.66 * high → AUDetector.score_to_intensity x low high = .SLIGHT) ∧
    (0.66 * high ≤ x → x < high → AUDetector.score_to_intensity x low high = .MARKED) ∧
    (high ≤ x → x < 1.3 * high → AUDetector.score_to_intensity x low high = .SEVERE) ∧
    (1.3 * high ≤ x → AUDetector.score_to_intensity x low high = .MAXIMUM) ∧
    VectorizedAUDetector.score_to_intensity_fast x low high =
      AUDetector.score_to_intensity x low high := by
  have hh : (0 : ℚ) ≤ high := by nlinarith
  unfold AUDetector.score_to_intensity VectorizedAUDetector.score_to_intensity_fast
  refine ⟨?_, ?_, ?_, ?_, ?_, ?_, rfl⟩ <;> intros <;> split_ifs <;>
    first
    | rfl
    | linarith

/-- C3, witness: the amended step function evaluated at `x = 0.3`,
`low = 0.15`, `high = 0.4` (all hypotheses discharged concretely). -/
theorem C3_intensity_steps_witness :
    AUDetector.score_to_intensity 0.3 0.15 0.4 = .MARKED := by
  have h := C3_intensity_steps 0.3 0.15 0.4 (by norm_num) (by norm_num)
  exact h.2.2.2.1 (by norm_num) (by norm_num)

/-- C7: with the submit queue modelled as a bounded FIFO of capacity 4 and
no consumer, a `submit_frame` on a full queue removes exactly the single
oldest buffered frame and appends the new one, and 10 consecutive
submissions from empty leave exactly the 4 most recent frames, in
submission order. -/
theorem C7_submit_backpressure :
    (∀ (q : List ℕ) (x : ℕ), q.length = 4 →
      ParallelFACSProcessor.submit_queue_step 4 q x = q.tail ++ [x]) ∧
    ParallelFACSProcessor.submit_all 4 ([] : List ℕ) [1, 2, 3, 4, 5, 6, 7, 8, 9, 10] =
      [7, 8, 9, 10] := by
  constructor
  · intro q x h
    simp [ParallelFACSProcessor.submit_queue_step, h]
  · rfl

/-- C7, witness: the drop-oldest step applied to the concrete full queue
`[1, 2, 3, 4]`. -/
theorem C7_submit_backpressure_witness :
    ParallelFACSProcessor.submit_queue_step 4 [1, 2, 3, 4] 5 = [2, 3, 4, 5] := by
  have h := C7_submit_backpressure.1 [1, 2, 3, 4] 5 (by decide)
  simpa using h

/-- C10: `submit_frame` always returns the incremented frame counter; for
every sequence of per-call queue outcomes (including the ones where the
first `put` and the drop-oldest retry both fail), the counter after `k`
calls is `k` and the `k`-th call returns exactly `k`. -/
theorem C10_frame_id (o : ℕ → ParallelFACSProcessor.PutOutcome) :
    (∀ k, (ParallelFACSProcessor.submit_run o k).1 = k) ∧
    (∀ k, 1 ≤ k → ParallelFACSProcessor.submit_ret o k = k) := by
  have hrun : ∀ k, (ParallelFACSProcessor.submit_run o k).1 = k := by
    intro k
    induction k with
    | zero => rfl
    | succ n ih =>
      simp [ParallelFACSProcessor.submit_run, ParallelFACSProcessor.submit_frame, ih]
  refine ⟨hrun, fun k hk => ?_⟩
  unfold ParallelFACSProcessor.submit_ret ParallelFACSProcessor.submit_frame
  simp [hrun]
  omega

/-- C10, witness: with every call's queue interaction failing outright
(`retryPutFailed`), the third call still returns frame id 3. -/
theorem C10_frame_id_witness :
    ParallelFACSProcessor.submit_ret (fun _ => .retryPutFailed) 3 = 3 :=
  (C10_frame_id (fun _ => .retryPutFailed)).2 3 (by decide)

/-- C6: `format_facs_code` drops ABSENT entries, sorts the rest by AU
number ascending, and joins them as `"AU{n}{label}"` with `" + "`; an empty
or all-ABSENT map yields exactly `"Neutral"`, and a map holding AU12 at
MARKED ("C") and AU6 at SLIGHT ("B") yields exactly `"AU6B + AU12C"`. -/
theorem C6_format_facs_code :
    (∀ m : List (ℕ × IntensityResult), (∀ p ∈ m, p.2.intensity = AUIntensity.ABSENT) →
      IntensityEstimator.format_facs_code m = "Neutral") ∧
    (∀ m : List (ℕ × IntensityResult), IntensityEstimator.activeEntries m ≠ [] →
      ∃ l : List (ℕ × String),
        (IntensityEstimator.activeEntries m).Perm l ∧
        l.Sorted IntensityEstimator.auOrd ∧
        IntensityEstimator.format_facs_code m =
          String.intercalate " + " (l.map (fun p => "AU" ++ toString p.1 ++ p.2))) ∧
    IntensityEstimator.format_facs_code [] = "Neutral" ∧
    IntensityEstimator.format_facs_code
      [(12, ⟨12, .MARKED, 3, IntensityEstimator.INTENSITY_LABELS .MARKED, 1⟩),
       (6, ⟨6, .SLIGHT, 2, IntensityEstimator.INTENSITY_LABELS .SLIGHT, 1⟩)] =
      "AU6B + AU12C" := by
  refine ⟨?_, ?_, rfl, rfl⟩
  · intro m h
    have ha : IntensityEstimator.activeEntries m = [] := by
      refine List.filterMap_eq_nil_iff.mpr (fun p hp => ?_)
      simp [h p hp]
    simp [IntensityEstimator.format_facs_code, ha]
  · intro m h
    refine ⟨List.insertionSort IntensityEstimator.auOrd (IntensityEstimator.activeEntries m),
      (List.perm_insertionSort _ _).symm, List.sorted_insertionSort _ _, ?_⟩
    simp only [IntensityEstimator.format_facs_code]
    rw [if_neg]
    simp [List.isEmpty_iff, h]

/-- C6, witness: the "Neutral" case applied to a concrete all-ABSENT map
and the join case applied to the concrete AU12-MARKED / AU6-SLIGHT map. -/
theorem C6_format_facs_code_witness :
    IntensityEstimator.format_facs_code [(12, ⟨12, .ABSENT, 0, "-", 1⟩)] = "Neutral" ∧
    ∃ l : List (ℕ × String),
      (IntensityEstimator.activeEntries
        [(12, ⟨12, .MARKED, 3, IntensityEstimator.INTENSITY_LABELS .MARKED, 1⟩),
         (6, ⟨6, .SLIGHT, 2, IntensityEstimator.INTENSITY_LABELS .SLIGHT, 1⟩)]).Perm l ∧
      l.Sorted IntensityEstimator.auOrd ∧
      IntensityEstimator.format_facs_code
        [(12, ⟨12, .MARKED, 3, IntensityEstimator.INTENSITY_LABELS .MARKED, 1⟩),
         (6, ⟨6, .SLIGHT, 2, IntensityEstimator.INTENSITY_LABELS .SLIGHT, 1⟩)] =
        String.intercalate " + " (l.map (fun p => "AU" ++ toString p.1 ++ p.2)) := by
  constructor
  · exact C6_format_facs_code.1 [(12, ⟨12, .ABSENT, 0, "-", 1⟩)] (by simp)
  · exact C6_format_facs_code.2.1 _ (by simp [IntensityEstimator.activeEntries])

/-- C5: the list returned by the emotion mapper is always sorted by
confidence descending, and when no emotion matched (no candidate survived
`_evaluate_emotion`) or the top confidence is below 0.3, the first element
is the synthetic "neutral" result with confidence `1 − top_confidence`
(`1.0` when nothing matched). -/
theorem C5_emotion_ranking :
    (∀ (detected : Finset ℕ) (intens : ℕ → ℚ),
      (EmotionMapper.map_core detected intens).Sorted EmotionMapper.confDesc) ∧
    (∀ (a : AUMap) (ir : List (ℕ × IntensityResult)),
      (EmotionMapper.mapper_map a ir).Sorted EmotionMapper.confDesc) ∧
    (∀ (detected : Finset ℕ) (intens : ℕ → ℚ),
      EmotionMapper.candidates detected intens = [] →
      EmotionMapper.map_core detected intens = [EmotionMapper.neutralResult 1.0]) ∧
    (∀ (detected : Finset ℕ) (intens : ℕ → ℚ)
        (top : EmotionResult) (rest : List EmotionResult),
      List.insertionSort EmotionMapper.confDesc
        (EmotionMapper.candidates detected intens) = top :: rest →
      top.confidence < 0.3 →
      EmotionMapper.map_core detected intens =
        EmotionMapper.neutralResult (1.0 - top.confidence) :: top :: rest) := by
  have hsort : ∀ (detected : Finset ℕ) (intens : ℕ → ℚ),
      (EmotionMapper.map_core detected intens).Sorted EmotionMapper.confDesc := by
    intro detected intens
    unfold EmotionMapper.map_core
    rcases hs : List.insertionSort EmotionMapper.confDesc
      (EmotionMapper.candidates detected intens) with _ | ⟨top, rest⟩
    · exact List.sorted_singleton _
    · have hsorted : (top :: rest).Sorted EmotionMapper.confDesc := by
        rw [← hs]
        exact List.sorted_insertionSort _ _
      show List.Sorted EmotionMapper.confDesc (if top.confidence < 0.3 then
        EmotionMapper.neutralResult (1.0 - top.confidence) :: top :: rest
        else top :: rest)
      by_cases hc : top.confidence < 0.3
      · rw [if_pos hc]
        refine List.sorted_cons.mpr ⟨?_, hsorted⟩
        intro b hb
        have hb' : b.confidence ≤ top.confidence := by
          rcases List.mem_cons.mp hb with rfl | hmem
          · exact le_refl _
          · exact List.rel_of_sorted_cons hsorted b hmem
        show b.confidence ≤ (EmotionMapper.neutralResult (1.0 - top.confidence)).confidence
        show b.confidence ≤ 1.0 - top.confidence
        linarith
      · rw [if_neg hc]
        exact hsorted
  refine ⟨hsort, fun a ir => hsort _ _, ?_, ?_⟩
  · intro detected intens h
    unfold EmotionMapper.map_core
    rw [h]
    rfl
  · intro detected intens top rest h hc
    unfold EmotionMapper.map_core
    rw [h]
    show (if top.confidence < 0.3 then
        EmotionMapper.neutralResult (1.0 - top.confidence) :: top :: rest
      else top :: rest) = _
    rw [if_pos hc]

/-- C5, witness: with nothing detected no emotion definition matches, and
the mapper returns exactly the synthetic neutral result with confidence
1.0 at the head. -/
theorem C5_emotion_ranking_witness :
    EmotionMapper.map_core ∅ (fun _ => 0) = [EmotionMapper.neutralResult 1.0] :=
  C5_emotion_ranking.2.2.1 ∅ (fun _ => 0) (by
    norm_num [EmotionMapper.candidates, EmotionMapper.evaluate_emotion, EMOTION_DEFINITIONS])

/-- C4, counterexample: for the static "anger" definition (index 4 of
`EMOTION_DEFINITIONS`), the detected set `{4, 5, 10, 17, 25, 26}` (2 of the
4 required AUs, all 4 optional AUs) with every intensity at the maximum 5
yields an emitted confidence of exactly 0.67, which exceeds
`0.7·required_match_ratio + 0.2·optional_ratio + 0.1 = 0.65`: the intensity
bonus here is `6 × 0.02 = 0.12 > 0.1`, so the claimed 0.1 bound on the
bonus is false. -/
theorem C4_claim_false :
    EMOTION_DEFINITIONS.get? 4 =
      some ⟨"anger", [4, 5, 7, 23], [10, 17, 25, 26], "", -0.8, 0.7⟩ ∧
    (EmotionMapper.evaluate_emotion ⟨"anger", [4, 5, 7, 23], [10, 17, 25, 26], "", -0.8, 0.7⟩
      ({4, 5, 10, 17, 25, 26} : Finset ℕ) (fun _ => 5)).map EmotionResult.confidence
      = some (67 / 100) ∧
    ¬ (67 / 100 : ℚ) ≤ 0.7 * (2 / 4) + 0.2 * (4 / 4) + 0.1 := by
  refine ⟨rfl, ?_, by norm_num⟩
  have h1 : (([4, 5, 7, 23] : List ℕ).toFinset ∩ ({4, 5, 10, 17, 25, 26} : Finset ℕ)) =
      ({4, 5} : Finset ℕ) := by decide
  have h2 : (([10, 17, 25, 26] : List ℕ).toFinset ∩ ({4, 5, 10, 17, 25, 26} : Finset ℕ)) =
      ({10, 17, 25, 26} : Finset ℕ) := by decide
  have h3 : ¬ ([4, 5, 7, 23] : List ℕ).toFinset = (∅ : Finset ℕ) := by decide
  have h4 : ¬ ([10, 17, 25, 26] : List ℕ).toFinset = (∅ : Finset ℕ) := by decide
  have h5 : (({4, 5} : Finset ℕ) ∪ ({10, 17, 25, 26} : Finset ℕ)) =
      ({4, 5, 10, 17, 25, 26} : Finset ℕ) := by decide
  have h6 : ({4, 5, 10, 17, 25, 26} : Finset ℕ).sum (fun _au => (5 : ℚ) / 5 * 0.02) = 0.12 := by
    rw [Finset.sum_const]
    norm_num
  simp only [EmotionMapper.evaluate_emotion, h1, h2, h3, h4, h5, h6, if_false]
  norm_num

/-- C4, amended: no `EmotionResult` is emitted when the required set is
empty or the required match ratio is below 0.5; otherwise the emitted
confidence is `min(0.7·required_ratio + 0.2·(optional ratio, 0 if optional
empty) + bonus, 1)` where the intensity bonus is `0.02·(intensity/5)` per
matched required-or-optional AU — bounded by `0.02·|matched|` when every
intensity is at most 5, which can exceed 0.1 as soon as more than 5 AUs
match (it is not capped at 0.1). -/
theorem C4_confidence_formula (defn : EmotionDefinition) (detected : Finset ℕ)
    (intens : ℕ → ℚ) :
    (defn.required_aus.toFinset = ∅ →
      EmotionMapper.evaluate_emotion defn detected intens = none) ∧
    (defn.required_aus.toFinset ≠ ∅ →
      ((defn.required_aus.toFinset ∩ detected).card : ℚ) /
        (defn.required_aus.toFinset.card : ℚ) < 0.5 →
      EmotionMapper.evaluate_emotion defn detected intens = none) ∧
    (defn.required_aus.toFinset ≠ ∅ →
      ¬ ((defn.required_aus.toFinset ∩ detected).card : ℚ) /
        (defn.required_aus.toFinset.card : ℚ) < 0.5 →
      (EmotionMapper.evaluate_emotion defn detected intens).map EmotionResult.confidence =
        some (min
          (((defn.required_aus.toFinset ∩ detected).card : ℚ) /
              (defn.required_aus.toFinset.card : ℚ) * 0.7 +
            (if defn.optional_aus.toFinset ≠ ∅ then
              ((defn.optional_aus.toFinset ∩ detected).card : ℚ) /
                (defn.optional_aus.toFinset.card : ℚ) * 0.2
            else 0) +
            (defn.required_aus.toFinset ∩ detected ∪
              defn.optional_aus.toFinset ∩ detected).sum
              (fun au => intens au / 5 * 0.02)) 1)) ∧
    ((∀ au, intens au ≤ 5) →
      (defn.required_aus.toFinset ∩ detected ∪
        defn.optional_aus.toFinset ∩ detected).sum (fun au => intens au / 5 * 0.02) ≤
        0.02 * ((defn.required_aus.toFinset ∩ detected ∪
          defn.optional_aus.toFinset ∩ detected).card : ℚ)) := by
  refine ⟨?_, ?_, ?_, ?_⟩
  · intro h
    simp [EmotionMapper.evaluate_emotion, h]
  · intro h1 h2
    simp only [EmotionMapper.evaluate_emotion]
    rw [if_neg h1, if_pos h2]
  · intro h1 h2
    simp only [EmotionMapper.evaluate_emotion]
    rw [if_neg h1, if_neg h2]
    rfl
  · intro h
    have hterm : ∀ au ∈ (defn.required_aus.toFinset ∩ detected ∪
        defn.optional_aus.toFinset ∩ detected), intens au / 5 * 0.02 ≤ (0.02 : ℚ) := by
      intro au _
      nlinarith [h au]
    calc (defn.required_aus.toFinset ∩ detected ∪
        defn.optional_aus.toFinset ∩ detected).sum (fun au => intens au / 5 * 0.02)
        ≤ ((defn.required_aus.toFinset ∩ detected ∪
            defn.optional_aus.toFinset ∩ detected).card : ℕ) • (0.02 : ℚ) :=
          Finset.sum_le_card_nsmul _ _ _ hterm
      _ = 0.02 * ((defn.required_aus.toFinset ∩ detected ∪
            defn.optional_aus.toFinset ∩ detected).card : ℚ) := by
          rw [nsmul_eq_mul, mul_comm]

/-- C4, witness: the accepted branch of the formula at the static
"happiness" definition with exactly its two required AUs detected and all
intensities zero: emitted confidence `0.7`. -/
theorem C4_confidence_formula_witness :
    (EmotionMapper.evaluate_emotion ⟨"happiness", [6, 12], [25, 26], "", 1.0, 0.5⟩
      ({6, 12} : Finset ℕ) (fun _ => 0)).map EmotionResult.confidence = some (7 / 10) := by
  have h := (C4_confidence_formula ⟨"happiness", [6, 12], [25, 26], "", 1.0, 0.5⟩
    ({6, 12} : Finset ℕ) (fun _ => 0)).2.2.1
  have e1 : (([6, 12] : List ℕ).toFinset ∩ ({6, 12} : Finset ℕ)) = ({6, 12} : Finset ℕ) := by
    decide
  have e2 : (([6, 12] : List ℕ).toFinset.card : ℚ) = 2 := by norm_num
  have e3 : (([25, 26] : List ℕ).toFinset ∩ ({6, 12} : Finset ℕ)) = (∅ : Finset ℕ) := by decide
  have e4 : ¬ ([6, 12] : List ℕ).toFinset = (∅ : Finset ℕ) := by decide
  rw [h e4 (by rw [e1, e2]; norm_num)]
  rw [e1, e2, e3]
  norm_num

namespace TemporalFilter

/-- The history returned by one `update` call is `newHist`. -/
lemma update_hist (ws : ℕ) (h : List AUMap) (m : AUMap) :
    (update ws h m).1 = newHist ws h m := by
  unfold update
  rw [apply_ite Prod.fst]
  split_ifs <;> rfl

/-- Shifting the iteration: the history after `k + 1` calls is one `update`
applied to the history after `k` calls. -/
lemma runHist_succ_back (ws : ℕ) (m : AUMap) :
    ∀ (k : ℕ) (h : List AUMap),
      runHist ws m (k + 1) h = (update ws (runHist ws m k h) m).1 := by
  intro k
  induction k with
  | zero => intro h; rfl
  | succ n ih =>
    intro h
    show runHist ws m (n + 1) (update ws h m).1 = _
    rw [ih]
    rfl

/-- Closed form of the history after `k` consecutive identical updates:
the last `min (h.length + k) ws` elements of `h ++ replicate k m`. -/
lemma runHist_formula (ws : ℕ) (m : AUMap) :
    ∀ (k : ℕ) (h : List AUMap), h.length ≤ ws →
      runHist ws m k h = (h ++ List.replicate k m).drop (h.length + k - ws) := by
  intro k
  induction k with
  | zero =>
    intro h hh
    show h = (h ++ List.replicate 0 m).drop (h.length + 0 - ws)
    rw [show h.length + 0 - ws = 0 by omega]
    simp
  | succ n ih =>
    intro h hh
    show runHist ws m n (update ws h m).1 = _
    rw [update_hist]
    unfold newHist
    have hr : (h ++ [m]) ++ List.replicate n m = h ++ List.replicate (n + 1) m := by
      rw [List.append_assoc]
      congr 1
    by_cases hc : ws < (h ++ [m]).length
    · -- the window overflowed: the oldest entry is popped, h.length = ws
      have hlen : h.length = ws := by
        simp only [List.length_append, List.length_singleton] at hc
        omega
      have htail : (h ++ [m]).tail = (h ++ [m]).drop 1 := by
        cases h <;> rfl
      have h1 : (1 : ℕ) ≤ (h ++ [m]).length := by
        simp
      have hdl : ((h ++ [m]).drop 1).length = ws := by
        simp only [List.length_drop, List.length_append, List.length_singleton]
        omega
      have hlen' : ((h ++ [m]).tail).length ≤ ws := by
        rw [htail, hdl]
      rw [if_pos hc, ih _ hlen', htail, hdl]
      have hsw : ((h ++ [m]).drop 1) ++ List.replicate n m =
          ((h ++ [m]) ++ List.replicate n m).drop 1 := by
        rw [List.drop_append_of_le_length h1]
      rw [hsw, List.drop_drop, hr]
      congr 1
      omega
    · rw [if_neg hc]
      have hlen : h.length + 1 ≤ ws := by
        simp only [List.length_append, List.length_singleton] at hc
        omega
      have hlen' : (h ++ [m]).length ≤ ws := by
        simp [hlen]
      rw [ih _ hlen', hr]
      congr 1
      simp only [List.length_append, List.length_singleton]
      omega

/-- After at least `window_size` consecutive identical updates the whole
window is `replicate window_size m`. -/
lemma runHist_replicate (ws k : ℕ) (m : AUMap) (h : List AUMap)
    (hh : h.length ≤ ws) (hk : ws ≤ k) :
    runHist ws m k h = List.replicate ws m := by
  rw [runHist_formula ws m k h hh]
  have he : h.length + k - ws = h.length + (k - ws) := by omega
  rw [he, List.drop_append, List.drop_replicate]
  congr 1
  omega

end TemporalFilter

/-- Association-list lookup finds the member's own value when the keys are
distinct (the dict invariant). -/
lemma lookup_of_mem_nodup {α : Type} (m : List (ℕ × α)) (p : ℕ × α)
    (hnd : (m.map Prod.fst).Nodup) (hp : p ∈ m) : m.lookup p.1 = some p.2 := by
  induction m with
  | nil => cases hp
  | cons q t ih =>
    rcases List.mem_cons.mp hp with rfl | hmem
    · simp [List.lookup]
    · have hq : q.1 ≠ p.1 := by
        intro he
        have : p.1 ∈ t.map Prod.fst := List.mem_map_of_mem Prod.fst hmem
        rw [List.map_cons, List.nodup_cons] at hnd
        exact hnd.1 (he ▸ this)
      have hbeq : (p.1 == q.1) = false := by
        simp [hq.symm]
      simp [List.lookup, hbeq]
      exact ih (by rw [List.map_cons, List.nodup_cons] at hnd; exact hnd.2) hmem

/-- `filterMap` over a constant list whose single image is `some y`. -/
lemma filterMap_replicate_some {α β : Type} (f : α → Option β) (n : ℕ) (x : α)
    (y : β) (hf : f x = some y) :
    (List.replicate n x).filterMap f = List.replicate n y := by
  induction n with
  | zero => rfl
  | succ k ih => simp [List.replicate_succ, List.filterMap_cons, hf, ih]

/-- Rebuilding an association list from its own keys via a pointwise
faithful `filterMap` is the identity. -/
lemma filterMap_keys_id {α : Type} (m : List (ℕ × α)) (F : ℕ → Option (ℕ × α))
    (hF : ∀ p ∈ m, F p.1 = some p) : (m.map Prod.fst).filterMap F = m := by
  induction m with
  | nil => rfl
  | cons q t ih =>
    simp only [List.map_cons, List.filterMap_cons, hF q (List.mem_cons_self q t)]
    rw [ih (fun p hp => hF p (List.mem_cons_of_mem q hp))]

/-- C8: feeding the same `AUDetectionResult` map (with distinct keys, the
dict invariant) to `TemporalFilter.update` for at least `window_size`
consecutive frames — `k + 1` calls with `window_size ≤ k + 1`, starting
from any history respecting the window bound — makes the last call return
a map equal to the input: the windowed means of a constant signal are the
input's own confidence and raw_score, and detected/intensity are taken
from the current frame. -/
theorem C8_temporal_filter_steady (ws k : ℕ) (h : List AUMap) (m : AUMap)
    (hh : h.length ≤ ws) (hnd : (m.map Prod.fst).Nodup) (hk : ws ≤ k + 1) :
    TemporalFilter.runOut ws m k h = m := by
  have hrep : TemporalFilter.newHist ws (TemporalFilter.runHist ws m k h) m
      = List.replicate ws m := by
    rw [← TemporalFilter.update_hist, ← TemporalFilter.runHist_succ_back]
    exact TemporalFilter.runHist_replicate ws (k + 1) m h hh hk
  unfold TemporalFilter.runOut
  unfold TemporalFilter.update
  rw [hrep]
  by_cases hws : ws < 2
  · rw [if_pos (by simpa using hws)]
  · rw [if_neg (by simpa using hws)]
    have hwsq : ((ws : ℚ)) ≠ 0 := by
      have : ws ≠ 0 := by omega
      exact_mod_cast this
    have hF : ∀ p ∈ m,
        TemporalFilter.smoothedEntry (List.replicate ws m) m p.1 = some p := by
      intro p hp
      have hlkp := lookup_of_mem_nodup m p hnd hp
      unfold TemporalFilter.smoothedEntry
      have hscores : (List.replicate ws m).filterMap
          (fun hmm => (hmm.lookup p.1).map AUDetectionResult.raw_score) =
          List.replicate ws p.2.raw_score :=
        filterMap_replicate_some _ ws m _ (by rw [hlkp]; rfl)
      have hconfs : (List.replicate ws m).filterMap
          (fun hmm => (hmm.lookup p.1).map AUDetectionResult.confidence) =
          List.replicate ws p.2.confidence :=
        filterMap_replicate_some _ ws m _ (by rw [hlkp]; rfl)
      simp only [hscores, hconfs, hlkp, Option.map_some']
      rw [if_neg (by simp [List.isEmpty_iff]; omega)]
      simp only [List.sum_replicate, List.length_replicate, nsmul_eq_mul]
      rw [mul_div_cancel_left₀ _ hwsq, mul_div_cancel_left₀ _ hwsq]
    rw [filterMap_keys_id m _ hF]
    simp

/-- C8, witness: a one-entry map fed three times to a window-3 filter from
an empty history comes back unchanged on the third call. -/
theorem C8_temporal_filter_steady_witness :
    TemporalFilter.runOut 3 [(1, ⟨1, "Inner Brow Raiser", true, 1/2, .SLIGHT, 1/4, 0⟩)] 2 [] =
      [(1, ⟨1, "Inner Brow Raiser", true, 1/2, .SLIGHT, 1/4, 0⟩)] :=
  C8_temporal_filter_steady 3 2 [] [(1, ⟨1, "Inner Brow Raiser", true, 1/2, .SLIGHT, 1/4, 0⟩)]
    (by decide) (by decide) (by decide)

/-- Keys survive a key-preserving `filterMap` over a key list. -/
lemma keys_filterMap_subset {α : Type} (ks : List ℕ) (F : ℕ → Option (ℕ × α))
    (hF : ∀ k v, F k = some v → v.1 = k) : mapKeys (ks.filterMap F) ⊆ ks := by
  intro x hx
  simp only [mapKeys, List.mem_map, List.mem_filterMap] at hx
  obtain ⟨p, ⟨k, hk, hFk⟩, hfst⟩ := hx
  have := hF k p hFk
  rw [← hfst, this]
  exact hk

/-- C9: every AU number appearing as a key of any result map the pipeline
produces — the scalar detector's map, the vectorized detector's map, a
temporally filtered map (for any input map already respecting the
invariant), and the intensity-result map (which keeps its input's keys) —
is a key of the static `AU_DEFINITIONS` table. -/
theorem C9_keys_in_au_definitions :
    (∀ (sq : ℚ → ℚ) (lms : Lms) (d a : DistMap),
      mapKeys (AUDetector.detect_all sq lms d a) ⊆ auDefKeys) ∧
    (∀ (sq : ℚ → ℚ) (lms : Lms) (d a : DistMap),
      mapKeys (VectorizedAUDetector.detect_all sq lms d a) ⊆ auDefKeys) ∧
    (∀ (ws : ℕ) (hist : List AUMap) (m : AUMap), mapKeys m ⊆ auDefKeys →
      mapKeys (TemporalFilter.update ws hist m).2 ⊆ auDefKeys) ∧
    (∀ m : AUMap, mapKeys (IntensityEstimator.estimate_all m) = mapKeys m) := by
  refine ⟨?_, ?_, ?_, ?_⟩
  · intro sq lms d a
    have hkeys : mapKeys (AUDetector.detect_all sq lms d a) = auDefKeys := rfl
    rw [hkeys]
    exact fun x hx => hx
  · intro sq lms d a
    have hkeys : mapKeys (VectorizedAUDetector.detect_all sq lms d a) =
        [1, 2, 4, 5, 6, 7, 9, 12, 15, 25, 26, 43] := rfl
    rw [hkeys]
    decide
  · intro ws hist m hm
    unfold TemporalFilter.update
    by_cases h2 : (TemporalFilter.newHist ws hist m).length < 2
    · rw [if_pos h2]
      exact hm
    · rw [if_neg h2]
      have hsub : mapKeys ((m.map Prod.fst).filterMap
          (TemporalFilter.smoothedEntry (TemporalFilter.newHist ws hist m) m)) ⊆
          mapKeys m := by
        apply keys_filterMap_subset
        intro k v hv
        unfold TemporalFilter.smoothedEntry at hv
        by_cases hsc : ((TemporalFilter.newHist ws hist m).filterMap
            (fun hmm => (hmm.lookup k).map AUDetectionResult.raw_score)).isEmpty
        · rw [if_pos hsc] at hv
          cases hv
        · rw [if_neg hsc] at hv
          cases hlk : m.lookup k with
          | none => rw [hlk] at hv; cases hv
          | some au =>
            rw [hlk] at hv
            simp only [Option.map_some', Option.some.injEq] at hv
            rw [← hv]
      show mapKeys (if ((m.map Prod.fst).filterMap
          (TemporalFilter.smoothedEntry (TemporalFilter.newHist ws hist m) m)).isEmpty
        then m
        else (m.map Prod.fst).filterMap
          (TemporalFilter.smoothedEntry (TemporalFilter.newHist ws hist m) m)) ⊆ auDefKeys
      by_cases hse : ((m.map Prod.fst).filterMap
          (TemporalFilter.smoothedEntry (TemporalFilter.newHist ws hist m) m)).isEmpty
      · rw [if_pos hse]
        exact hm
      · rw [if_neg hse]
        exact fun x hx => hm (hsub hx)
  · intro m
    simp [mapKeys, IntensityEstimator.estimate_all, List.map_map, Function.comp]

/-- C9, witness: the temporal-filter conjunct applied to a concrete
one-entry AU1 map (whose key is in `AU_DEFINITIONS`). -/
theorem C9_keys_in_au_definitions_witness :
    mapKeys (TemporalFilter.update 1 []
      [(1, ⟨1, "Inner Brow Raiser", true, 1/2, .SLIGHT, 1/4, 0⟩)]).2 ⊆ auDefKeys :=
  C9_keys_in_au_definitions.2.2.1 1 []
    [(1, ⟨1, "Inner Brow Raiser", true, 1/2, .SLIGHT, 1/4, 0⟩)] (by decide)

/-- C1, counterexample: on a concrete input the two detectors do not even
produce the same key set — AU 10 is in the scalar path's map and not in the
vectorized path's — and on the shared AU 5 the asymmetries differ by 1/4
(the scalar strategy fixes asymmetry 0, the vectorized one uses the EAR
difference), far beyond the claimed 1e-6 tolerance. -/
theorem C1_claim_false :
    10 ∈ mapKeys (AUDetector.detect_all sq0 lms0 d0 a0) ∧
    10 ∉ mapKeys (VectorizedAUDetector.detect_all sq0 lms0 d0 a0) ∧
    ((AUDetector.detect_all sq0 lms0 d0 a0).lookup 5).map AUDetectionResult.asymmetry
      = some 0 ∧
    ((VectorizedAUDetector.detect_all sq0 lms0 d0 a0).lookup 5).map AUDetectionResult.asymmetry
      = some (1 / 4) ∧
    ¬ |(0 : ℚ) - 1 / 4| ≤ 1e-6 := by
  refine ⟨?_, ?_, rfl, ?_, by rw [abs_of_nonpos (by norm_num)]; norm_num⟩
  · rw [show mapKeys (AUDetector.detect_all sq0 lms0 d0 a0) =
      [1, 2, 4, 5, 6, 7, 9, 10, 12, 15, 17, 20, 23, 25, 26, 43] from rfl]
    decide
  · rw [show mapKeys (VectorizedAUDetector.detect_all sq0 lms0 d0 a0) =
      [1, 2, 4, 5, 6, 7, 9, 12, 15, 25, 26, 43] from rfl]
    decide
  · rw [show ((VectorizedAUDetector.detect_all sq0 lms0 d0 a0).lookup 5).map
        AUDetectionResult.asymmetry =
      some (qclip (dgetD d0 "left_eye_aspect_ratio" 0.25 -
        dgetD d0 "right_eye_aspect_ratio" 0.25) (-1) 1) from rfl]
    rw [show dgetD d0 "left_eye_aspect_ratio" 0.25 = 1 / 2 from rfl,
      show dgetD d0 "right_eye_aspect_ratio" 0.25 = 1 / 4 from rfl]
    norm_num [qclip]

/-- C1, amended: the two detectors are not equivalent.  For every input,
the scalar path's key set is the full 16-AU `AU_DEFINITIONS` key list while
the vectorized path emits only its 12 `AU_NUMBERS` (AUs 10, 17, 20, 23
appear only in the scalar map, zero-scored).  On the five AUs whose two
implementations share the same formula — 1, 2, 4, 25, 26 — the stored
`AUDetectionResult`s are equal exactly; on the EAR-based AUs 5, 7 and 43
the raw scores (hence detected, confidence and intensity) agree but the
asymmetries differ: the scalar strategies fix asymmetry 0 while the
vectorized path reports the signed eye-aspect-ratio difference.  (AUs 6
and 12 differ in where clipping is applied and are not claimed equal.) -/
theorem C1_detectors_partial_agreement (sq : ℚ → ℚ) (lms : Lms) (d a : DistMap) :
    mapKeys (AUDetector.detect_all sq lms d a) =
      [1, 2, 4, 5, 6, 7, 9, 10, 12, 15, 17, 20, 23, 25, 26, 43] ∧
    mapKeys (VectorizedAUDetector.detect_all sq lms d a) =
      [1, 2, 4, 5, 6, 7, 9, 12, 15, 25, 26, 43] ∧
    (AUDetector.detect_all sq lms d a).lookup 1 =
      (VectorizedAUDetector.detect_all sq lms d a).lookup 1 ∧
    (AUDetector.detect_all sq lms d a).lookup 2 =
      (VectorizedAUDetector.detect_all sq lms d a).lookup 2 ∧
    (AUDetector.detect_all sq lms d a).lookup 4 =
      (VectorizedAUDetector.detect_all sq lms d a).lookup 4 ∧
    (AUDetector.detect_all sq lms d a).lookup 25 =
      (VectorizedAUDetector.detect_all sq lms d a).lookup 25 ∧
    (AUDetector.detect_all sq lms d a).lookup 26 =
      (VectorizedAUDetector.detect_all sq lms d a).lookup 26 ∧
    ((AUDetector.detect_all sq lms d a).lookup 5).map AUDetectionResult.raw_score =
      ((VectorizedAUDetector.detect_all sq lms d a).lookup 5).map AUDetectionResult.raw_score ∧
    ((AUDetector.detect_all sq lms d a).lookup 7).map AUDetectionResult.raw_score =
      ((VectorizedAUDetector.detect_all sq lms d a).lookup 7).map AUDetectionResult.raw_score ∧
    ((AUDetector.detect_all sq lms d a).lookup 43).map AUDetectionResult.raw_score =
      ((VectorizedAUDetector.detect_all sq lms d a).lookup 43).map AUDetectionResult.raw_score ∧
    ((AUDetector.detect_all sq lms d a).lookup 5).map AUDetectionResult.asymmetry = some 0 ∧
    ((AUDetector.detect_all sq lms d a).lookup 7).map AUDetectionResult.asymmetry = some 0 ∧
    ((AUDetector.detect_all sq lms d a).lookup 43).map AUDetectionResult.asymmetry = some 0 ∧
    ((VectorizedAUDetector.detect_all sq lms d a).lookup 5).map AUDetectionResult.asymmetry =
      some (qclip (dgetD d "left_eye_aspect_ratio" 0.25 -
        dgetD d "right_eye_aspect_ratio" 0.25) (-1) 1) ∧
    ((VectorizedAUDetector.detect_all sq lms d a).lookup 7).map AUDetectionResult.asymmetry =
      some (qclip (dgetD d "right_eye_aspect_ratio" 0.25 -
        dgetD d "left_eye_aspect_ratio" 0.25) (-1) 1) ∧
    ((VectorizedAUDetector.detect_all sq lms d a).lookup 43).map AUDetectionResult.asymmetry =
      some (qclip (dgetD d "right_eye_aspect_ratio" 0.25 -
        dgetD d "left_eye_aspect_ratio" 0.25) (-1) 1) := by
  have e1 : AUDetector.detect_au1 lms (eyeDist d) =
      VectorizedAUDetector.compute_score sq lms d (eyeDist d) 1 := by
    dsimp only [AUDetector.detect_au1, VectorizedAUDetector.compute_score, qclip]
    rw [max_comm (0 : ℚ)]
    rw [if_pos rfl]
  have e2 : AUDetector.detect_au2 lms (eyeDist d) =
      VectorizedAUDetector.compute_score sq lms d (eyeDist d) 2 := by
    dsimp only [AUDetector.detect_au2, VectorizedAUDetector.compute_score, qclip]
    rw [max_comm (0 : ℚ)]
    rw [if_neg (by decide), if_pos rfl]
  have e4 : AUDetector.detect_au4 d (eyeDist d) =
      VectorizedAUDetector.compute_score sq lms d (eyeDist d) 4 := by
    dsimp only [AUDetector.detect_au4, VectorizedAUDetector.compute_score, qclip]
    rw [max_comm (0 : ℚ)]
    rw [if_neg (by decide), if_neg (by decide), if_pos rfl]
  have e25 : AUDetector.detect_au25 d (eyeDist d) =
      VectorizedAUDetector.compute_score sq lms d (eyeDist d) 25 := by
    dsimp only [AUDetector.detect_au25, VectorizedAUDetector.compute_score, qclip]
    rw [max_comm (0 : ℚ)]
    rw [if_neg (by decide), if_neg (by decide), if_neg (by decide), if_neg (by decide),
      if_neg (by decide), if_neg (by decide), if_neg (by decide), if_neg (by decide),
      if_neg (by decide), if_neg (by decide), if_pos rfl]
  have e26 : AUDetector.detect_au26 d (eyeDist d) =
      VectorizedAUDetector.compute_score sq lms d (eyeDist d) 26 := by
    dsimp only [AUDetector.detect_au26, VectorizedAUDetector.compute_score, qclip]
    rw [max_comm (0 : ℚ)]
    rw [if_neg (by decide), if_neg (by decide), if_neg (by decide), if_neg (by decide),
      if_neg (by decide), if_neg (by decide), if_neg (by decide), if_neg (by decide),
      if_neg (by decide), if_neg (by decide), if_neg (by decide), if_pos rfl]
  have s5 : (AUDetector.detect_au5 d).1 =
      (VectorizedAUDetector.compute_score sq lms d (eyeDist d) 5).1 := by
    dsimp only [AUDetector.detect_au5, VectorizedAUDetector.compute_score, qclip]
    rw [max_comm (0 : ℚ)]
    rw [if_neg (by decide), if_neg (by decide), if_neg (by decide), if_pos rfl]
  have s7 : (AUDetector.detect_au7 d).1 =
      (VectorizedAUDetector.compute_score sq lms d (eyeDist d) 7).1 := by
    dsimp only [AUDetector.detect_au7, VectorizedAUDetector.compute_score, qclip]
    rw [max_comm (0 : ℚ)]
    rw [if_neg (by decide), if_neg (by decide), if_neg (by decide), if_neg (by decide),
      if_neg (by decide), if_pos rfl]
  have s43 : (AUDetector.detect_au43 d).1 =
      (VectorizedAUDetector.compute_score sq lms d (eyeDist d) 43).1 := by
    dsimp only [AUDetector.detect_au43, VectorizedAUDetector.compute_score, qclip]
    rw [max_comm (0 : ℚ)]
    rw [if_neg (by decide), if_neg (by decide), if_neg (by decide), if_neg (by decide),
      if_neg (by decide), if_neg (by decide), if_pos rfl]
  refine ⟨rfl, rfl, ?_, ?_, ?_, ?_, ?_, ?_, ?_, ?_, rfl, rfl, rfl, rfl, rfl, rfl⟩
  · rw [show (AUDetector.detect_all sq lms d a).lookup 1 =
        some (AUDetector.assemble 1 "Inner Brow Raiser"
          (AUDetector.detect_au1 lms (eyeDist d))) from rfl,
      show (VectorizedAUDetector.detect_all sq lms d a).lookup 1 =
        some (VectorizedAUDetector.assemble 1 "Inner Brow Raiser"
          (VectorizedAUDetector.compute_score sq lms d (eyeDist d) 1)) from rfl]
    exact congrArg (fun rs => some (VectorizedAUDetector.assemble 1 "Inner Brow Raiser" rs)) e1
  · rw [show (AUDetector.detect_all sq lms d a).lookup 2 =
        some (AUDetector.assemble 2 "Outer Brow Raiser"
          (AUDetector.detect_au2 lms (eyeDist d))) from rfl,
      show (VectorizedAUDetector.detect_all sq lms d a).lookup 2 =
        some (VectorizedAUDetector.assemble 2 "Outer Brow Raiser"
          (VectorizedAUDetector.compute_score sq lms d (eyeDist d) 2)) from rfl]
    exact congrArg (fun rs => some (VectorizedAUDetector.assemble 2 "Outer Brow Raiser" rs)) e2
  · rw [show (AUDetector.detect_all sq lms d a).lookup 4 =
        some (AUDetector.assemble 4 "Brow Lowerer"
          (AUDetector.detect_au4 d (eyeDist d))) from rfl,
      show (VectorizedAUDetector.detect_all sq lms d a).lookup 4 =
        some (VectorizedAUDetector.assemble 4 "Brow Lowerer"
          (VectorizedAUDetector.compute_score sq lms d (eyeDist d) 4)) from rfl]
    exact congrArg (fun rs => some (VectorizedAUDetector.assemble 4 "Brow Lowerer" rs)) e4
  · rw [show (AUDetector.detect_all sq lms d a).lookup 25 =
        some (AUDetector.assemble 25 "Lips Part"
          (AUDetector.detect_au25 d (eyeDist d))) from rfl,
      show (VectorizedAUDetector.detect_all sq lms d a).lookup 25 =
        some (VectorizedAUDetector.assemble 25 "Lips Part"
          (VectorizedAUDetector.compute_score sq lms d (eyeDist d) 25)) from rfl]
    exact congrArg (fun rs => some (VectorizedAUDetector.assemble 25 "Lips Part" rs)) e25
  · rw [show (AUDetector.detect_all sq lms d a).lookup 26 =
        some (AUDetector.assemble 26 "Jaw Drop"
          (AUDetector.detect_au26 d (eyeDist d))) from rfl,
      show (VectorizedAUDetector.detect_all sq lms d a).lookup 26 =
        some (VectorizedAUDetector.assemble 26 "Jaw Drop"
          (VectorizedAUDetector.compute_score sq lms d (eyeDist d) 26)) from rfl]
    exact congrArg (fun rs => some (VectorizedAUDetector.assemble 26 "Jaw Drop" rs)) e26
  · rw [show ((AUDetector.detect_all sq lms d a).lookup 5).map AUDetectionResult.raw_score =
        some ((AUDetector.detect_au5 d).1) from rfl,
      show ((VectorizedAUDetector.detect_all sq lms d a).lookup 5).map
          AUDetectionResult.raw_score =
        some ((VectorizedAUDetector.compute_score sq lms d (eyeDist d) 5).1) from rfl]
    exact congrArg some s5
  · rw [show ((AUDetector.detect_all sq lms d a).lookup 7).map AUDetectionResult.raw_score =
        some ((AUDetector.detect_au7 d).1) from rfl,
      show ((VectorizedAUDetector.detect_all sq lms d a).lookup 7).map
          AUDetectionResult.raw_score =
        some ((VectorizedAUDetector.compute_score sq lms d (eyeDist d) 7).1) from rfl]
    exact congrArg some s7
  · rw [show ((AUDetector.detect_all sq lms d a).lookup 43).map AUDetectionResult.raw_score =
        some ((AUDetector.detect_au43 d).1) from rfl,
      show ((VectorizedAUDetector.detect_all sq lms d a).lookup 43).map
          AUDetectionResult.raw_score =
        some ((VectorizedAUDetector.compute_score sq lms d (eyeDist d) 43).1) from rfl]
    exact congrArg some s43

/-- Trivial stand-ins for the abstract numpy primitives, used for concrete
evaluation (the control flow under test never depends on their values). -/
def prims0 : NumPrims := ⟨fun _ => 0, fun _ _ => 0, fun _ => 0, fun _ => 0⟩

/-- C2: the feature extractor performs no landmark-count validation and no
`InvalidLandmarks` error exists.  With 67 points (any values) the whole
distance computation silently succeeds; the balanced-mode entry point then
returns a normal result with `is_valid = True`.  With 66 points the
extractor instead raises an uncaught `IndexError` that propagates past the
orchestration boundary.  Only a `None` landmark result (no face detected)
is translated into an `is_valid = False` result with zero-valued fields. -/
theorem C2_no_landmark_validation :
    (FeatureExtractor.compute_distances prims0 true
      (List.replicate 67 ((0 : ℚ), (0 : ℚ)))).isSome = true ∧
    (FeatureExtractor.compute_distances prims0 true
      (List.replicate 66 ((0 : ℚ), (0 : ℚ)))).isSome = false ∧
    (∃ r, FACSAnalyzer.analyze_balanced prims0
        (some (List.replicate 67 ((0 : ℚ), (0 : ℚ)))) = Except.ok r ∧
      r.has_landmarks = true) ∧
    FACSAnalyzer.analyze_balanced prims0
      (some (List.replicate 66 ((0 : ℚ), (0 : ℚ)))) = Except.error () ∧
    FACSAnalyzer.analyze_balanced prims0 none = Except.ok AnalysisRec.empty ∧
    AnalysisRec.empty.has_landmarks = false := by
  exact ⟨rfl, rfl, ⟨_, rfl, rfl⟩, rfl, rfl, rfl⟩
